import Mathlib

/-!
# Verification of the bunnyAI retrieval / knowledge-graph pipeline

Shallow embedding of the core data model and operations of the repository:

* cache-validity checking (`BookKnowledgeGraph.is_cache_valid`,
  `MultiBookAnalyzer.is_cache_valid` — the two copies are textually identical);
* the per-book knowledge graph, its validation/cleaning
  (`BookKnowledgeGraph.validate_and_clean_knowledge_graph`) and its
  force-graph projection (`BookKnowledgeGraph.get_force_graph_data`);
* LLM extraction result handling
  (`BookKnowledgeGraph._extract_entities_and_relationships`,
  `MultiBookAnalyzer.extract_comprehensive_entities`);
* the placeholder entity embedding
  (`BookKnowledgeGraph._generate_simple_embedding`);
* chunk retrieval, merging and deduplication
  (`MultiBookRAG.retrieve_relevant_chunks`,
  `MultiBookRAG.get_comprehensive_context`, `MultiBookRAG.query`).

External collaborators (the ChromaDB vector store, the LLM completion
service, `json.loads`, `hashlib.md5`, `datetime.fromisoformat`) are modelled
as function parameters; everything the repository itself computes is
translated directly from the Python source.

Numbers: Python datetimes are modelled as integer (naive) timestamps in
seconds; vector-store distances are modelled as integers (only their order is
ever used by the code); `importance`/`strength` scores are modelled as
rationals (they carry the literal default `0.5`).
-/

namespace BunnyAI

/-! ## Cache validity (`is_cache_valid`)

Python source (`book_knowledge_graph.py:372-386`, identical copy in
`multi_book_analyzer.py:476-490`):

```
if not metadata: return False
created_at_str = metadata.get('created_at')
if not created_at_str: return False
try:
    created_at = datetime.fromisoformat(created_at_str)
    expiry_date = created_at + timedelta(days=self.cache_expiry_days)
    return datetime.now() < expiry_date
except:
    return False
```

The metadata mapping is represented by its `created_at` field alone: an empty
mapping (Python `if not metadata`) has no `created_at`, so that guard is
subsumed by the `none` case.  `datetime.fromisoformat` is the external parse
function `parse : String → Option Int` (naive timestamps, in seconds); the
`try/except` around it is the `none` case.  Python's falsiness test
`if not created_at_str` additionally rejects the empty string.
-/

/-- `cache_expiry_days = 7`, i.e. `timedelta(days=7)` in seconds. -/
def cache_expiry_seconds : Int := 7 * 24 * 60 * 60

/-- Model of `is_cache_valid(metadata)`. -/
def is_cache_valid (parse : String → Option Int) (now : Int)
    (created_at : Option String) : Bool :=
  match created_at with
  | none => false
  | some s =>
    if s = "" then false
    else
      match parse s with
      | none => false
      | some t => decide (now < t + cache_expiry_seconds)

/-! ## Knowledge-graph data model

An entity mapping is an association list keyed by `entity_id` (Python dict:
iteration order preserved, keys unique).  Fields accessed with `.get(...)`
in the source are `Option`s; fields the source indexes directly
(`entity_data['name']`, `entity_data['type']`, `rel['type']`) are mandatory.
JSON relationship keys `from`/`to` are named `rel_from`/`rel_to` (`from` is a
Lean keyword); both are accessed with `.get` in the cleaning code, hence
`Option`. -/

structure Entity where
  name : String
  etype : String
  description : Option String
  importance : Option Rat
deriving DecidableEq

structure Relationship where
  rel_from : Option String
  rel_to : Option String
  rtype : String
  strength : Option Rat
  description : Option String
deriving DecidableEq

structure KnowledgeGraph where
  entities : List (String × Entity)
  relationships : List Relationship
deriving DecidableEq

/-- `entity_ids = set(entities.keys())`. -/
def entityIds (g : KnowledgeGraph) : List String := g.entities.map Prod.fst

/-- One relationship survives cleaning iff
`rel.get('from') in entity_ids and rel.get('to') in entity_ids`
(a missing key gives `None`, which is never a member of a set of strings). -/
def relKept (ids : List String) (r : Relationship) : Bool :=
  (r.rel_from.any fun f => decide (f ∈ ids)) &&
  (r.rel_to.any fun t => decide (t ∈ ids))

/-- The filtering step of `validate_and_clean_knowledge_graph`: entities are
kept as they are, relationships are filtered to `valid_relationships`. -/
def cleanGraph (g : KnowledgeGraph) : KnowledgeGraph :=
  { g with relationships := g.relationships.filter (relKept (entityIds g)) }

/-- Number of orphaned relationships `validate_and_clean` would remove from a
given cache state (`orphaned_count` in the source; `0` when no graph is
cached). -/
def orphanedRemoved (cache : Option KnowledgeGraph) : Nat :=
  match cache with
  | none => 0
  | some g => g.relationships.length - (cleanGraph g).relationships.length

/-- Model of `validate_and_clean_knowledge_graph(book_id)`
(`book_knowledge_graph.py:388-443`).  The on-disk cache for the book is the
`Option KnowledgeGraph` input (`get_knowledge_graph` returns the pickled
mapping when it has both top-level keys, `None` otherwise); the result is the
returned graph together with the cache state after the call: the cleaned
graph is pickled back only when `orphaned_count > 0`. -/
def validate_and_clean (cache : Option KnowledgeGraph) :
    KnowledgeGraph × Option KnowledgeGraph :=
  match cache with
  | none => (⟨[], []⟩, none)
  | some g =>
    let cleaned := cleanGraph g
    if g.relationships.length - cleaned.relationships.length > 0 then
      (cleaned, some cleaned)
    else
      (cleaned, some g)

/-! ## Force-graph projection (`get_force_graph_data`) -/

structure ForceNode where
  id : String
  name : String
  ntype : String
  description : String
  importance : Rat
  group : String
deriving DecidableEq

structure ForceLink where
  source : String
  target : String
  ltype : String
  strength : Rat
  description : String
deriving DecidableEq

structure ForceGraphMeta where
  book_id : String
  node_count : Nat
  link_count : Nat
deriving DecidableEq

structure ForceGraphData where
  nodes : List ForceNode
  links : List ForceLink
  metadata : ForceGraphMeta
deriving DecidableEq

/-- Model of `get_force_graph_data(book_id)`
(`book_knowledge_graph.py:280-321`).  The guard `if not kg_data` in the
source can never fire — `validate_and_clean_knowledge_graph` always returns a
two-key (hence truthy) mapping — so it is not modelled.  Cleaned
relationships always carry both endpoints (see
`validate_and_clean_no_orphans`), so the `getD ""` defaults standing in for
the direct indexing `rel['from']`/`rel['to']` are never reached. -/
def get_force_graph_data (cache : Option KnowledgeGraph) (book_id : String) :
    ForceGraphData :=
  let kg := (validate_and_clean cache).1
  let nodes := kg.entities.map fun p =>
    { id := p.1
      name := p.2.name
      ntype := p.2.etype
      description := p.2.description.getD ""
      importance := p.2.importance.getD (1/2)
      group := p.2.etype : ForceNode }
  let links := kg.relationships.map fun r =>
    { source := r.rel_from.getD ""
      target := r.rel_to.getD ""
      ltype := r.rtype
      strength := r.strength.getD (1/2)
      description := r.description.getD "" : ForceLink }
  { nodes := nodes
    links := links
    metadata :=
      { book_id := book_id
        node_count := nodes.length
        link_count := links.length } }

/-! ## JSON values and a mini JSON parser

The LLM returns text which the extractors run through `json.loads`.
`json.loads` is external (Python stdlib), so the extraction functions are
parameterised by an abstract `parse : String → Option JValue`; the general
theorems quantify over it.  `miniJsonParse` below is an honest executable
parser for a JSON subset (`null`/`true`/`false`, integers, escape-free
strings, arrays, objects; fuel-bounded, no floats); it instantiates the
abstract parameter in the concrete closed runs, at inputs where its behaviour
agrees with `json.loads`. -/

inductive JValue where
  | jnull
  | jbool (b : Bool)
  | jnum (n : Int)
  | jstr (s : String)
  | jarr (elems : List JValue)
  | jobj (fields : List (String × JValue))

def skipWs (cs : List Char) : List Char :=
  cs.dropWhile fun c => c == ' ' || c == '\n' || c == '\t' || c == '\r'

/-- Read the characters of a string literal up to the closing quote
(escape sequences are outside the mini model). -/
def takeStringLit : List Char → Option (List Char × List Char)
  | [] => none
  | '"' :: rest => some ([], rest)
  | '\\' :: _ => none
  | c :: rest => (takeStringLit rest).map fun p => (c :: p.1, p.2)

def spanDigits (cs : List Char) : List Char × List Char :=
  (cs.takeWhile Char.isDigit, cs.dropWhile Char.isDigit)

def digitsToNat (ds : List Char) : Nat :=
  ds.foldl (fun n c => n * 10 + (c.toNat - '0'.toNat)) 0

/-- Fuel-bounded recursive-descent parser.  Array and object tails are parsed
by re-entering the parser on a synthetic `[`/`{` prefix, which keeps the
recursion structural in the fuel. -/
def parseVal : Nat → List Char → Option (JValue × List Char)
  | 0, _ => none
  | fuel + 1, cs =>
    match skipWs cs with
    | 'n' :: 'u' :: 'l' :: 'l' :: rest => some (.jnull, rest)
    | 't' :: 'r' :: 'u' :: 'e' :: rest => some (.jbool true, rest)
    | 'f' :: 'a' :: 'l' :: 's' :: 'e' :: rest => some (.jbool false, rest)
    | '"' :: rest =>
      (takeStringLit rest).map fun p => (.jstr (String.mk p.1), p.2)
    | '[' :: rest =>
      (match skipWs rest with
       | ']' :: rest2 => some (.jarr [], rest2)
       | rest2 =>
         match parseVal fuel rest2 with
         | none => none
         | some (v, rest3) =>
           match skipWs rest3 with
           | ']' :: rest4 => some (.jarr [v], rest4)
           | ',' :: rest4 =>
             (match skipWs rest4 with
              | ']' :: _ => none
              | rest5 =>
                match parseVal fuel ('[' :: rest5) with
                | some (.jarr vs, rest6) => some (.jarr (v :: vs), rest6)
                | _ => none)
           | _ => none)
    | '{' :: rest =>
      (match skipWs rest with
       | '}' :: rest2 => some (.jobj [], rest2)
       | '"' :: rest2 =>
         (match takeStringLit rest2 with
          | none => none
          | some (kcs, rest3) =>
            match skipWs rest3 with
            | ':' :: rest4 =>
              (match parseVal fuel rest4 with
               | none => none
               | some (v, rest5) =>
                 match skipWs rest5 with
                 | '}' :: rest6 => some (.jobj [(String.mk kcs, v)], rest6)
                 | ',' :: rest6 =>
                   (match skipWs rest6 with
                    | '"' :: rest7 =>
                      (match parseVal fuel ('{' :: '"' :: rest7) with
                       | some (.jobj fs, rest8) =>
                         some (.jobj ((String.mk kcs, v) :: fs), rest8)
                       | _ => none)
                    | _ => none)
                 | _ => none)
            | _ => none)
       | _ => none)
    | '-' :: rest =>
      (match spanDigits rest with
       | ([], _) => none
       | (ds, rest2) => some (.jnum (-(Int.ofNat (digitsToNat ds))), rest2))
    | c :: rest =>
      if c.isDigit then
        let p := spanDigits (c :: rest)
        some (.jnum (Int.ofNat (digitsToNat p.1)), p.2)
      else none
    | [] => none

def miniJsonParse (s : String) : Option JValue :=
  match parseVal (2 * s.length + 2) s.data with
  | some (v, rest) => if (skipWs rest).isEmpty then some v else none
  | none => none

/-! ## Extraction result handling

`_extract_entities_and_relationships` (`book_knowledge_graph.py:118-203`)
and `extract_comprehensive_entities` (`multi_book_analyzer.py:618-713`) both
strip an optional code fence, run `json.loads`, and test
`'entities' in kg_data or 'relationships' in kg_data`.  Python's `in`
operator is type-directed: key membership on a dict, element membership on a
list, substring test on a str; on any other value it raises `TypeError`,
which the surrounding `except Exception` turns into the same result as the
explicit `raise ValueError`, so the `false` of the catch-all arm of `pyIn`
models those branches faithfully. -/

/-- Substring containment on character lists (an empty needle is contained in
everything, as in Python). -/
def containsSub (needle : List Char) : List Char → Bool
  | [] => needle.isEmpty
  | c :: rest => needle.isPrefixOf (c :: rest) || containsSub needle rest

/-- Python `needle in hay` for strings (substring test). -/
def pySubstr (needle hay : String) : Bool :=
  containsSub needle.data hay.data

/-- Python `k in j` for a parsed JSON value. -/
def pyIn (k : String) (j : JValue) : Bool :=
  match j with
  | .jobj fields => fields.any fun kv => kv.1 == k
  | .jarr elems =>
    elems.any fun x =>
      match x with
      | .jstr s => s == k
      | _ => false
  | .jstr s => pySubstr k s
  | _ => false

/-- Python `str.strip()` on a character list. -/
def trimChars (cs : List Char) : List Char :=
  ((cs.dropWhile Char.isWhitespace).reverse.dropWhile Char.isWhitespace).reverse

/-- ```content = response.strip()```, then drop a leading ```` ```json ````
and a trailing ```` ``` ```` fence marker (string slicing done on character
lists, as Python slices by code point). -/
def cleanLLMContent (response : String) : String :=
  let content := trimChars response.data
  let content :=
    if ("```json".data).isPrefixOf content then content.drop 7 else content
  let content :=
    if ("```".data).isSuffixOf content then content.take (content.length - 3)
    else content
  String.mk content

/-- `None` models both the `json.JSONDecodeError` return and the
`ValueError`/`TypeError` paths of `_extract_entities_and_relationships`. -/
def extract_entities_and_relationships (parse : String → Option JValue)
    (response : String) : Option JValue :=
  let content := cleanLLMContent response
  match parse content with
  | none => none
  | some kg =>
    if pyIn "entities" kg && pyIn "relationships" kg then some kg else none

/-- Result of `extract_knowledge_graph`: either the parsed graph or the
`{'error': ...}` mapping the caller checks with `'error' in result`. -/
inductive ExtractResult where
  | ok (kg : JValue)
  | error (msg : String)

/-- Cache-miss extraction path of `extract_knowledge_graph(book_id, context)`
(`book_knowledge_graph.py:59-116`); the cache-hit path returns a previously
cached graph without parsing anything and is irrelevant to parse-failure
behaviour.  `response` is the text of the LLM completion. -/
def extract_knowledge_graph (parse : String → Option JValue)
    (book_id response : String) : ExtractResult :=
  match extract_entities_and_relationships parse response with
  | none => .error ("Failed to extract knowledge graph for " ++ book_id)
  | some kg => .ok kg

/-- `{'entities': {}, 'relationships': []}` — what
`extract_comprehensive_entities` returns on both of its exception paths. -/
def emptyGraphJ : JValue := .jobj [("entities", .jobj []), ("relationships", .jarr [])]

/-- Model of `extract_comprehensive_entities(book_id, context)`
(`multi_book_analyzer.py:618-713`), response-processing part. -/
def extract_comprehensive_entities (parse : String → Option JValue)
    (response : String) : JValue :=
  let content := cleanLLMContent response
  match parse content with
  | none => emptyGraphJ
  | some j =>
    if pyIn "entities" j && pyIn "relationships" j then j else emptyGraphJ

/-! ## Placeholder entity embedding (`_generate_simple_embedding`)

`book_knowledge_graph.py:234-247`.  `hashlib.md5(...).digest()` is the
external parameter `md5digest` (16 bytes for the real MD5; the theorem does
not need that).  Byte values are exact, so components live in `ℚ`. -/

def _generate_simple_embedding (md5digest : String → List Nat)
    (text : String) : List Rat :=
  let hash_bytes := md5digest text
  (List.range 384).map fun i =>
    let b := hash_bytes.getD (i % hash_bytes.length) 0
    ((b : Rat) - 128) / 128

/-! ## Chunk retrieval and merging (`MultiBookRAG`)

The vector store is external: `store query_text where_filter n_results`
stands for `self.collection.query(query_texts=[query], n_results=...,
where=...)`, already flattened into one record per hit (the source zips the
parallel `documents`/`metadatas`/`distances` arrays into exactly this shape,
`multi_book_rag.py:132-140`).  Distances are modelled as integers — the code
only ever compares them. -/

structure ChunkMeta where
  id : Option String
  book_id : Option String
  book_title : Option String
  chunk_index : Option Nat
deriving DecidableEq

structure RChunk where
  text : String
  metadata : ChunkMeta
  distance : Int
deriving DecidableEq

/-- A vector-store similarity query: text, optional `book_id $in` filter,
requested result count. -/
def ChunkStore : Type := String → Option (List String) → Nat → List RChunk

/-- `where_clause = {"book_id": {"$in": book_ids}} if book_ids else None`;
an empty list is falsy in Python. -/
def whereClauseFor (book_ids : Option (List String)) : Option (List String) :=
  match book_ids with
  | some l => if l.isEmpty then none else some l
  | none => none

/-- `chunk_id = chunk['metadata'].get('id', chunk['text'][:50])` — the
deduplication key used by both `retrieve_relevant_chunks` and
`get_comprehensive_context`. -/
def dedupKey (c : RChunk) : String :=
  match c.metadata.id with
  | some i => i
  | none => String.mk (c.text.data.take 50)

/-- The `seen_chunks` loop: keep the first chunk carrying each key. -/
def dedupChunks (seen : List String) : List RChunk → List RChunk
  | [] => []
  | c :: rest =>
    if dedupKey c ∈ seen then dedupChunks seen rest
    else c :: dedupChunks (dedupKey c :: seen) rest

/-- Sort key of `unique_chunks.sort(key=lambda x: x.get('distance', 0))`
(the construction at `multi_book_rag.py:135-139` always sets `distance`). -/
def distLE (a b : RChunk) : Prop := a.distance ≤ b.distance

instance : DecidableRel distLE := fun a b =>
  inferInstanceAs (Decidable (a.distance ≤ b.distance))

instance : IsTotal RChunk distLE := ⟨fun a b => Int.le_total a.distance b.distance⟩

instance : IsTrans RChunk distLE := ⟨fun _ _ _ h h2 => le_trans h h2⟩

/-- Python `list.sort` is a stable ascending sort; insertion sort is one too,
and any two stable sorts of the same list under the same key agree. -/
def sortByDistance (cs : List RChunk) : List RChunk := cs.insertionSort distLE

/-- Model of `retrieve_relevant_chunks(query, book_ids, n_results)`
(`multi_book_rag.py:107-158`): query the store for `min(2·n, 100)` hits,
deduplicate, sort ascending by distance, truncate to `n_results`. -/
def retrieve_relevant_chunks (store : ChunkStore) (query : String)
    (book_ids : Option (List String)) (n_results : Nat) : List RChunk :=
  let response := store query (whereClauseFor book_ids) (min (n_results * 2) 100)
  let unique_chunks := dedupChunks [] response
  (sortByDistance unique_chunks).take n_results

/-- The stop-word set of `MultiBookRAG.extract_key_terms`
(`multi_book_rag.py:216`). -/
def multiBookStopWords : List String :=
  ["the", "a", "an", "and", "or", "but", "in", "on", "at", "to", "for", "of",
   "with", "by", "is", "are", "was", "were", "be", "been", "have", "has",
   "had", "do", "does", "did", "will", "would", "could", "should", "may",
   "might", "can", "this", "that", "these", "those", "i", "you", "he", "she",
   "it", "we", "they", "me", "him", "her", "us", "them"]

/-- Python `word.strip('.,!?;:')`: remove those characters from both ends. -/
def stripPunct (w : String) : String :=
  let punct : List Char := ['.', ',', '!', '?', ';', ':']
  let cs := w.data.dropWhile punct.contains
  String.mk ((cs.reverse.dropWhile punct.contains).reverse)

/-- Python `str.split()` (no separator): split on whitespace runs, dropping
empty pieces. -/
def splitWsAux (acc : List Char) : List Char → List (List Char)
  | [] => [acc.reverse]
  | c :: cs =>
    if c.isWhitespace then acc.reverse :: splitWsAux [] cs
    else splitWsAux (c :: acc) cs

def pySplitWs (s : String) : List String :=
  ((splitWsAux [] s.data).filter (· ≠ [])).map String.mk

/-- Model of `extract_key_terms(query)` (`multi_book_rag.py:214-221`);
`query.lower()` is a per-character lowercasing. -/
def extract_key_terms (query : String) : List String :=
  let words := pySplitWs (String.mk (query.data.map Char.toLower))
  words.filterMap fun w =>
    let s := stripPunct w
    if s ∉ multiBookStopWords ∧ s.length > 2 then some s else none

/-- The merged, deduplicated, distance-sorted chunk sequence built by
`get_comprehensive_context` (`multi_book_rag.py:178-199`): direct-query
results plus up-to-5 key-term queries of 10 results each, deduplicated by
`dedupKey` keeping first occurrences, then sorted. -/
def mergedChunks (store : ChunkStore) (query : String)
    (book_ids : Option (List String)) (n_results : Nat) : List RChunk :=
  let chunks := retrieve_relevant_chunks store query book_ids n_results
  let additional_chunks :=
    ((extract_key_terms query).take 5).flatMap fun term =>
      retrieve_relevant_chunks store term book_ids 10
  sortByDistance (dedupChunks [] (chunks ++ additional_chunks))

def noContextMsg : String := "No relevant context found."

def noInfoAnswer : String :=
  "I couldn't find any relevant information in the documents to answer your question."

/-- One chunk's contribution to the context string
(`multi_book_rag.py:203-210`). -/
def formatChunk (i : Nat) (c : RChunk) : List String :=
  let book_title := c.metadata.book_title.getD "Unknown Book"
  let chunk_index := c.metadata.chunk_index.getD i
  ["--- " ++ book_title ++ " - Section " ++ toString (i + 1) ++
     " (chunk " ++ toString chunk_index ++ ") ---",
   c.text, ""]

/-- Model of `get_comprehensive_context(query, book_ids, n_results)`
(`multi_book_rag.py:160-212`). -/
def get_comprehensive_context (store : ChunkStore) (query : String)
    (book_ids : Option (List String)) (n_results : Nat) : String :=
  let chunks := retrieve_relevant_chunks store query book_ids n_results
  if chunks.isEmpty then noContextMsg
  else
    let unique_chunks := mergedChunks store query book_ids n_results
    String.intercalate "\n"
      ((unique_chunks.take n_results).enum.flatMap fun p => formatChunk p.1 p.2)

/-! ## The query operation (`MultiBookRAG.query`, `multi_book_rag.py:405-474`)

LLM completion calls are the observable the empty-context claim speaks about,
so the model counts them.  `analyze_single_book` (`multi_book_analyzer.py:
157-268`) makes 0 completion calls on a valid cache hit, 0 when the book has
no chunks (early `error` return), and otherwise exactly 4
(`extract_comprehensive_entities`, `create_book_summary`,
`analyze_characters`, `analyze_plot_and_conflicts`).
`initialize_book_knowledge(book_ids)` (`multi_book_rag.py:71-105`, the
explicit-books branch) runs `analyze_single_book` once per book; each book's
cache state is summarised as the pair (valid cache hit?, has chunks?).
`generate_response` makes exactly one completion call.  The composed answer
text itself comes from the external LLM and is the `composedAnswer`
parameter. -/

def analyze_single_book_llm_calls (cacheValid hasChunks : Bool) : Nat :=
  if cacheValid then 0 else if hasChunks then 4 else 0

def initialize_book_knowledge_llm_calls (bookCaches : List (Bool × Bool)) : Nat :=
  (bookCaches.map fun b => analyze_single_book_llm_calls b.1 b.2).sum

structure QueryOutcome where
  answer : String
  chunks_used : Nat
  context : String
  initLLMCalls : Nat
  composeLLMCalls : Nat
deriving DecidableEq

/-- Model of `query(question, book_ids, n_results, use_book_knowledge)` after
the book-id resolution of `multi_book_rag.py:419-431` (past that point
`book_ids` is always a concrete list).  `analysesEmpty` is
`not self.book_analyses`. -/
def rag_query (store : ChunkStore) (analysesEmpty useBookKnowledge : Bool)
    (bookCaches : List (Bool × Bool)) (composedAnswer : String)
    (question : String) (book_ids : List String) (n_results : Nat) :
    QueryOutcome :=
  let ic := if useBookKnowledge && analysesEmpty then
    initialize_book_knowledge_llm_calls bookCaches else 0
  let context := get_comprehensive_context store question (some book_ids) n_results
  if context = "" ∨ context = noContextMsg then
    { answer := noInfoAnswer, chunks_used := 0, context := ""
      initLLMCalls := ic, composeLLMCalls := 0 }
  else
    { answer := composedAnswer, chunks_used := n_results, context := context
      initLLMCalls := ic, composeLLMCalls := 1 }

/-! ## The second Retriever copy (`EnhancedRAG`, `utils/enhanced_rag.py`)

The repository carries a second, divergent copy of the retrieval pipeline.
Its `retrieve_relevant_chunks` (`utils/enhanced_rag.py:99-133`) queries with
no `where` filter and does not deduplicate (sort by distance, truncate); its
`get_comprehensive_context` (`utils/enhanced_rag.py:135-196`) merges four
strategies — direct query, up to 3 key terms × 3 results, conflict-vocabulary
searches × 2 results when the query mentions an outcome word (a Python
substring test on the lowered query), and per-word searches × 2 results for
alphabetic words longer than 2 — then deduplicates by
`chunk.get('metadata', {}).get('chunk_index', 0)` and sorts by distance. -/

def enhanced_retrieve_relevant_chunks (store : ChunkStore) (query : String)
    (n_results : Nat) : List RChunk :=
  let response := store query none (min (n_results * 2) 100)
  (sortByDistance response).take n_results

/-- The stop-word set of `EnhancedRAG.extract_key_terms`
(`utils/enhanced_rag.py:198`) — it ends in question words where the
`MultiBookRAG` copy has pronouns. -/
def enhancedStopWords : List String :=
  ["the", "a", "an", "and", "or", "but", "in", "on", "at", "to", "for", "of",
   "with", "by", "is", "are", "was", "were", "be", "been", "have", "has",
   "had", "do", "does", "did", "will", "would", "could", "should", "may",
   "might", "can", "what", "who", "where", "when", "why", "how"]

/-- Model of `EnhancedRAG.extract_key_terms(query)`
(`utils/enhanced_rag.py:196-203`). -/
def enhanced_extract_key_terms (query : String) : List String :=
  let words := pySplitWs (String.mk (query.data.map Char.toLower))
  words.filterMap fun w =>
    let s := stripPunct w
    if s ∉ enhancedStopWords ∧ s.length > 2 then some s else none

/-- `['won', 'beat', ...]` — the outcome vocabulary whose appearance
(substring-wise) in the lowered query triggers strategy 3. -/
def conflictTriggerWords : List String :=
  ["won", "beat", "defeat", "victory", "conflict", "fight", "battle",
   "competition", "outcome", "result"]

/-- `conflict_terms` of strategy 3. -/
def conflictSearchTerms : List String :=
  ["conflict", "fight", "battle", "competition", "rivalry", "win", "lose",
   "victory", "defeat", "outcome", "resolution"]

/-- Python `str.isalpha()`: non-empty and all-alphabetic. -/
def pyIsAlpha (s : String) : Bool :=
  !s.data.isEmpty && s.data.all Char.isAlpha

/-- `chunk_id = chunk.get('metadata', {}).get('chunk_index', 0)` — the
deduplication key of the `EnhancedRAG` copy. -/
def enhancedDedupKey (c : RChunk) : Nat := c.metadata.chunk_index.getD 0

/-- The `seen_chunks` loop of `EnhancedRAG.get_comprehensive_context`:
keep the first chunk carrying each `chunk_index` key. -/
def dedupChunksByIndex (seen : List Nat) : List RChunk → List RChunk
  | [] => []
  | c :: rest =>
    if enhancedDedupKey c ∈ seen then dedupChunksByIndex seen rest
    else c :: dedupChunksByIndex (enhancedDedupKey c :: seen) rest

/-- The merged, deduplicated, distance-sorted chunk sequence built by
`EnhancedRAG.get_comprehensive_context` (`utils/enhanced_rag.py:146-184`).
The `if key_terms:` guard is omitted: looping over the first 3 of an empty
key-term list already contributes nothing. -/
def enhancedMergedChunks (store : ChunkStore) (query : String)
    (max_chunks : Nat) : List RChunk :=
  let chunks1 := enhanced_retrieve_relevant_chunks store query (max_chunks / 3)
  let chunks2 :=
    ((enhanced_extract_key_terms query).take 3).flatMap fun term =>
      enhanced_retrieve_relevant_chunks store term 3
  let qlower := String.mk (query.data.map Char.toLower)
  let chunks3a :=
    if conflictTriggerWords.any (fun w => containsSub w.data qlower.data) then
      conflictSearchTerms.flatMap fun term =>
        enhanced_retrieve_relevant_chunks store term 2
    else []
  let chunks3b :=
    (pySplitWs qlower).flatMap fun word =>
      if pyIsAlpha word ∧ word.length > 2 then
        enhanced_retrieve_relevant_chunks store word 2
      else []
  let all_chunks := chunks1 ++ chunks2 ++ (chunks3a ++ chunks3b)
  sortByDistance (dedupChunksByIndex [] all_chunks)

/-! ## Concrete inputs for witnesses and counterexamples -/

/-- A parse function for the cache-validity witness: one known timestamp
string, everything else unparseable (as `datetime.fromisoformat` on the empty
string). -/
def parseW : String → Option Int :=
  fun s => if s = "2026-01-01T00:00:00" then some 0 else none

/-- Two entities joined by one valid relationship; a second relationship
dangles and is cleaned away. -/
def gEx : KnowledgeGraph :=
  { entities :=
      [("alice_character", ⟨"Alice", "character", none, none⟩),
       ("hut_place", ⟨"Hut", "place", none, none⟩)]
    relationships :=
      [⟨some "alice_character", some "hut_place", "lives_in", none, none⟩,
       ⟨some "alice_character", some "ghost_character", "fears", none, none⟩] }

/-- The surviving relationship of `gEx`. -/
def relEx : Relationship :=
  ⟨some "alice_character", some "hut_place", "lives_in", none, none⟩

/-- A store answering every query with one chunk of book `b1`. -/
def storeB1 : ChunkStore :=
  fun _ _ _ =>
    [{ text := "Maya sails to the island."
       metadata :=
         { id := some "b1_chunk_0", book_id := some "b1"
           book_title := some "Sidetrack Key", chunk_index := some 0 }
       distance := 1 }]

/-- Two distinct stored chunks that share `(book_id, chunk_index)` identity
but carry different `id` metadata and different texts. -/
def chunkA : RChunk :=
  { text := "AAAA first version of the passage."
    metadata :=
      { id := some "x", book_id := some "b", book_title := none
        chunk_index := some 1 }
    distance := 0 }

def chunkB : RChunk :=
  { text := "BBBB second version of the passage."
    metadata :=
      { id := some "y", book_id := some "b", book_title := none
        chunk_index := some 1 }
    distance := 1 }

def cx5Store : ChunkStore := fun _ _ _ => [chunkA, chunkB]

/-- A store that finds nothing. -/
def emptyStore : ChunkStore := fun _ _ _ => []

/-- A stand-in digest function for the embedding witness. -/
def md5stub : String → List Nat := fun _ => List.range 16

/-! ## Helper lemmas for the cleaning operation -/

theorem validate_and_clean_fst (g : KnowledgeGraph) :
    (validate_and_clean (some g)).1 = cleanGraph g := by
  show (if g.relationships.length - (cleanGraph g).relationships.length > 0 then
      (cleanGraph g, some (cleanGraph g)) else (cleanGraph g, some g)).1 = cleanGraph g
  split <;> rfl

theorem cleanGraph_entities (g : KnowledgeGraph) :
    (cleanGraph g).entities = g.entities := rfl

theorem cleanGraph_idem (g : KnowledgeGraph) :
    cleanGraph (cleanGraph g) = cleanGraph g := by
  unfold cleanGraph entityIds
  dsimp only
  rw [List.filter_filter]
  simp only [Bool.and_self]

theorem validate_and_clean_snd (g : KnowledgeGraph) :
    (validate_and_clean (some g)).2 =
      if g.relationships.length - (cleanGraph g).relationships.length > 0
      then some (cleanGraph g) else some g := by
  show (if g.relationships.length - (cleanGraph g).relationships.length > 0 then
      (cleanGraph g, some (cleanGraph g)) else (cleanGraph g, some g)).2 = _
  split <;> rfl

/-! ## Helper lemmas for deduplication -/

theorem dedupChunks_subset (seen : List String) (l : List RChunk) :
    ∀ c ∈ dedupChunks seen l, c ∈ l := by
  induction l generalizing seen with
  | nil => intro c hc; exact absurd hc (by simp [dedupChunks])
  | cons a rest ih =>
    intro c hc
    unfold dedupChunks at hc
    split at hc
    · exact List.mem_cons_of_mem _ (ih seen c hc)
    · rcases List.mem_cons.mp hc with h | h
      · exact h ▸ List.mem_cons_self _ _
      · exact List.mem_cons_of_mem _ (ih _ c h)

theorem dedupChunks_keys (seen : List String) (l : List RChunk) :
    (dedupChunks seen l).Pairwise (fun a b => dedupKey a ≠ dedupKey b) ∧
    ∀ c ∈ dedupChunks seen l, dedupKey c ∉ seen := by
  induction l generalizing seen with
  | nil => exact ⟨List.Pairwise.nil, by simp [dedupChunks]⟩
  | cons a rest ih =>
    unfold dedupChunks
    split
    · exact ih seen
    · rename_i hmem
      obtain ⟨ihp, ihs⟩ := ih (dedupKey a :: seen)
      refine ⟨List.Pairwise.cons ?_ ihp, ?_⟩
      · intro b hb heq
        exact ihs b hb (heq ▸ List.mem_cons_self _ _)
      · intro c hc
        rcases List.mem_cons.mp hc with h | h
        · exact h ▸ hmem
        · intro hs
          exact ihs c h (List.mem_cons_of_mem _ hs)

theorem dedupChunksByIndex_keys (seen : List Nat) (l : List RChunk) :
    (dedupChunksByIndex seen l).Pairwise
      (fun a b => enhancedDedupKey a ≠ enhancedDedupKey b) ∧
    ∀ c ∈ dedupChunksByIndex seen l, enhancedDedupKey c ∉ seen := by
  induction l generalizing seen with
  | nil => exact ⟨List.Pairwise.nil, by simp [dedupChunksByIndex]⟩
  | cons a rest ih =>
    unfold dedupChunksByIndex
    split
    · exact ih seen
    · rename_i hmem
      obtain ⟨ihp, ihs⟩ := ih (enhancedDedupKey a :: seen)
      refine ⟨List.Pairwise.cons ?_ ihp, ?_⟩
      · intro b hb heq
        exact ihs b hb (heq ▸ List.mem_cons_self _ _)
      · intro c hc
        rcases List.mem_cons.mp hc with h | h
        · exact h ▸ hmem
        · intro hs
          exact ihs c h (List.mem_cons_of_mem _ hs)

/-! ## Claim theorems -/

/-- C1: for every cache metadata mapping, `is_cache_valid` returns `true` iff
the metadata contains a `created_at` string that parses as a timestamp and
`now - created_at` is strictly less than 7 days; it returns `false` when
`created_at` is absent or unparseable, and `false` at exactly 7 days of age
and beyond.  (`parse` models `datetime.fromisoformat`; the empty string is
unparseable, as in Python.) -/
theorem is_cache_valid_window (parse : String → Option Int) (now : Int)
    (md : Option String) (hparse : parse "" = none) :
    (is_cache_valid parse now md = true ↔
      ∃ s t, md = some s ∧ parse s = some t ∧ now - t < cache_expiry_seconds) ∧
    (∀ s t, md = some s → parse s = some t →
      cache_expiry_seconds ≤ now - t → is_cache_valid parse now md = false) := by
  constructor
  · cases md with
    | none => simp [is_cache_valid]
    | some s =>
      by_cases hs : s = ""
      · subst hs
        simp [is_cache_valid, hparse]
      · cases hp : parse s with
        | none => simp [is_cache_valid, hs, hp]
        | some t =>
          have lhs : is_cache_valid parse now (some s) = true ↔
              now < t + cache_expiry_seconds := by
            simp [is_cache_valid, hs, hp]
          rw [lhs]
          constructor
          · intro h; exact ⟨s, t, rfl, hp, by omega⟩
          · rintro ⟨s', t', hs', hp', hlt⟩
            obtain rfl : s = s' := Option.some.inj hs'
            rw [hp'] at hp
            obtain rfl : t' = t := Option.some.inj hp
            omega
  · intro s t hmd hp hge
    subst hmd
    by_cases hs : s = ""
    · simp [is_cache_valid, hs]
    · simp only [is_cache_valid, hs, if_false, hp, decide_eq_false_iff_not]
      omega

/-- C1 witness: a just-created entry is valid; an exactly-7-days-old entry is
not. -/
theorem is_cache_valid_window_witness :
    is_cache_valid parseW 1 (some "2026-01-01T00:00:00") = true ∧
    is_cache_valid parseW (7 * 24 * 60 * 60) (some "2026-01-01T00:00:00") = false :=
  ⟨(is_cache_valid_window parseW 1 (some "2026-01-01T00:00:00") rfl).1.mpr
      ⟨"2026-01-01T00:00:00", 0, rfl, rfl, by decide⟩,
   (is_cache_valid_window parseW (7 * 24 * 60 * 60)
      (some "2026-01-01T00:00:00") rfl).2 "2026-01-01T00:00:00" 0 rfl rfl
      (by decide)⟩

/-- C2: every relationship in the graph returned by
`validate_and_clean_knowledge_graph` has both its `from` and its `to` entity
id present among the keys of the returned entities mapping; no orphaned
relationship remains after cleaning. -/
theorem validate_and_clean_no_orphans (cache : Option KnowledgeGraph)
    (r : Relationship)
    (hr : r ∈ (validate_and_clean cache).1.relationships) :
    (∃ f, r.rel_from = some f ∧ f ∈ entityIds (validate_and_clean cache).1) ∧
    (∃ t, r.rel_to = some t ∧ t ∈ entityIds (validate_and_clean cache).1) := by
  cases cache with
  | none => exact absurd hr (by simp [validate_and_clean])
  | some g =>
    rw [validate_and_clean_fst] at hr ⊢
    have hr' : r ∈ g.relationships.filter (relKept (entityIds g)) := hr
    have hkept : relKept (entityIds g) r = true := (List.mem_filter.mp hr').2
    unfold relKept at hkept
    rw [Bool.and_eq_true] at hkept
    obtain ⟨h1, h2⟩ := hkept
    constructor
    · cases hf : r.rel_from with
      | none => rw [hf] at h1; exact absurd h1 (by simp)
      | some f =>
        rw [hf] at h1
        simp only [Option.any_some, decide_eq_true_eq] at h1
        exact ⟨f, rfl, h1⟩
    · cases ht : r.rel_to with
      | none => rw [ht] at h2; exact absurd h2 (by simp)
      | some t =>
        rw [ht] at h2
        simp only [Option.any_some, decide_eq_true_eq] at h2
        exact ⟨t, rfl, h2⟩

/-- C2 witness: the surviving relationship of `gEx` references only keys of
the cleaned graph's entity mapping. -/
theorem validate_and_clean_no_orphans_witness :
    (∃ f, relEx.rel_from = some f ∧
      f ∈ entityIds (validate_and_clean (some gEx)).1) ∧
    (∃ t, relEx.rel_to = some t ∧
      t ∈ entityIds (validate_and_clean (some gEx)).1) :=
  validate_and_clean_no_orphans (some gEx) relEx (by decide)

/-- C3: applying `validate_and_clean_knowledge_graph` twice (including its
re-persisting of the cleaned graph) yields the same graph as applying it
once, and the second application removes zero relationships. -/
theorem validate_and_clean_idempotent (cache : Option KnowledgeGraph) :
    (validate_and_clean ((validate_and_clean cache).2)).1 =
      (validate_and_clean cache).1 ∧
    orphanedRemoved ((validate_and_clean cache).2) = 0 := by
  cases cache with
  | none => exact ⟨rfl, rfl⟩
  | some g =>
    rw [validate_and_clean_snd]
    by_cases h : g.relationships.length - (cleanGraph g).relationships.length > 0
    · rw [if_pos h, validate_and_clean_fst, validate_and_clean_fst,
        cleanGraph_idem]
      refine ⟨rfl, ?_⟩
      show (cleanGraph g).relationships.length -
        (cleanGraph (cleanGraph g)).relationships.length = 0
      rw [cleanGraph_idem]
      omega
    · rw [if_neg h]
      refine ⟨rfl, ?_⟩
      show g.relationships.length - (cleanGraph g).relationships.length = 0
      omega

/-- C4: if a knowledge graph with `N` entities and `M` after-cleaning
relationships is cached, `get_force_graph_data` returns exactly `N` nodes and
`M` links; if no graph is cached it returns the empty
`{nodes: [], links: []}` view rather than `None` or an error. -/
theorem get_force_graph_data_counts (cache : Option KnowledgeGraph)
    (book_id : String) :
    (∀ g, cache = some g →
      (get_force_graph_data cache book_id).nodes.length = g.entities.length ∧
      (get_force_graph_data cache book_id).links.length =
        (cleanGraph g).relationships.length) ∧
    (cache = none →
      (get_force_graph_data cache book_id).nodes = [] ∧
      (get_force_graph_data cache book_id).links = []) := by
  constructor
  · rintro g rfl
    constructor
    · show ((validate_and_clean (some g)).1.entities.map _).length = _
      rw [List.length_map, validate_and_clean_fst, cleanGraph_entities]
    · show ((validate_and_clean (some g)).1.relationships.map _).length = _
      rw [List.length_map, validate_and_clean_fst]
  · rintro rfl
    exact ⟨rfl, rfl⟩

/-- C4 witness: `gEx` has 2 entities and, after cleaning, 1 relationship; the
projection returns 2 nodes and 1 link, and an uncached book yields the empty
view. -/
theorem get_force_graph_data_counts_witness :
    (get_force_graph_data (some gEx) "b1").nodes.length = 2 ∧
    (get_force_graph_data (some gEx) "b1").links.length = 1 ∧
    (get_force_graph_data none "b1").nodes = [] ∧
    (get_force_graph_data none "b1").links = [] := by
  have h1 := (get_force_graph_data_counts (some gEx) "b1").1 gEx rfl
  have h2 := (get_force_graph_data_counts none "b1").2 rfl
  exact ⟨h1.1.trans (by decide), h1.2.trans (by decide), h2.1, h2.2⟩

/-- C10: `validate_and_clean_knowledge_graph` returns the entities mapping of
the cached graph unchanged and only filters the relationships sequence; the
re-persisted cache state (when persisting happens) also carries the unchanged
entities mapping. -/
theorem validate_and_clean_frame (g : KnowledgeGraph) :
    (validate_and_clean (some g)).1.entities = g.entities ∧
    (validate_and_clean (some g)).1.relationships.Sublist g.relationships ∧
    ∃ g', (validate_and_clean (some g)).2 = some g' ∧
      g'.entities = g.entities := by
  refine ⟨by rw [validate_and_clean_fst]; rfl, ?_, ?_⟩
  · rw [validate_and_clean_fst]
    exact List.filter_sublist _
  · rw [validate_and_clean_snd]
    split
    · exact ⟨cleanGraph g, rfl, rfl⟩
    · exact ⟨g, rfl, rfl⟩

/-- C5 (amended): after each Retriever copy merges the direct-query results
with all key-term results and deduplicates, no two chunks in the merged
sequence share that copy's deduplication key: in `MultiBookRAG` the key is
the chunk's `id` metadata when present and the first 50 characters of its
text otherwise; in `EnhancedRAG` the key is the chunk's `chunk_index`
metadata (default 0).  Neither copy keys on `book_id + chunk_index`. -/
theorem merged_chunks_dedup_key_unique (store : ChunkStore) (query : String)
    (book_ids : Option (List String)) (n_results max_chunks : Nat) :
    (mergedChunks store query book_ids n_results).Pairwise
      (fun a b => dedupKey a ≠ dedupKey b) ∧
    (enhancedMergedChunks store query max_chunks).Pairwise
      (fun a b => enhancedDedupKey a ≠ enhancedDedupKey b) := by
  constructor
  · unfold mergedChunks sortByDistance
    have hsym : ∀ {x y : RChunk},
        dedupKey x ≠ dedupKey y → dedupKey y ≠ dedupKey x :=
      fun h e => h e.symm
    exact ((List.perm_insertionSort distLE _).pairwise_iff hsym).mpr
      (dedupChunks_keys [] _).1
  · unfold enhancedMergedChunks sortByDistance
    have hsym : ∀ {x y : RChunk},
        enhancedDedupKey x ≠ enhancedDedupKey y →
          enhancedDedupKey y ≠ enhancedDedupKey x :=
      fun h e => h e.symm
    exact ((List.perm_insertionSort distLE _).pairwise_iff hsym).mpr
      (dedupChunksByIndex_keys [] _).1

/-- C5 counterexample: two stored chunks share the `(book_id, chunk_index)`
identity `("b", 1)` (identity metadata fully present) yet both survive the
merge, because the code deduplicates by the `id` metadata field — `"x"` vs
`"y"` here — not by `book_id + chunk_index`. -/
theorem merged_chunks_identity_counterexample :
    ¬ (mergedChunks cx5Store "q" (some ["b"]) 5).Pairwise
      (fun a b => ¬ (a.metadata.book_id = b.metadata.book_id ∧
        a.metadata.book_id ≠ none ∧
        a.metadata.chunk_index = b.metadata.chunk_index ∧
        a.metadata.chunk_index ≠ none)) := by
  decide

/-- C6: for every question, non-empty book-id filter set and limit `n`,
`retrieve_relevant_chunks` returns at most `n` chunks, each tagged with a
`book_id` from the filter set (given the vector store honours its `$in`
filter contract), ordered by non-decreasing distance. -/
theorem retrieve_relevant_chunks_spec (store : ChunkStore) (q : String)
    (bids : List String) (n : Nat) (hb : bids ≠ [])
    (hstore : ∀ c ∈ store q (some bids) (min (n * 2) 100),
      ∃ b ∈ bids, c.metadata.book_id = some b) :
    (retrieve_relevant_chunks store q (some bids) n).length ≤ n ∧
    (∀ c ∈ retrieve_relevant_chunks store q (some bids) n,
      ∃ b ∈ bids, c.metadata.book_id = some b) ∧
    (retrieve_relevant_chunks store q (some bids) n).Pairwise distLE := by
  have hwc : whereClauseFor (some bids) = some bids := by
    cases bids with
    | nil => exact absurd rfl hb
    | cons a l => rfl
  refine ⟨List.length_take_le _ _, ?_, ?_⟩
  · intro c hc
    unfold retrieve_relevant_chunks sortByDistance at hc
    rw [hwc] at hc
    have hc1 := List.mem_of_mem_take hc
    rw [List.mem_insertionSort] at hc1
    exact hstore c (dedupChunks_subset _ _ c hc1)
  · unfold retrieve_relevant_chunks sortByDistance
    exact List.Pairwise.sublist (List.take_sublist _ _)
      (List.sorted_insertionSort distLE _)

/-- C6 witness: with a store answering one `b1` chunk, a `k = 5` query for
the protagonist returns at most 5 chunks, all from `b1`, sorted by
distance. -/
theorem retrieve_relevant_chunks_spec_witness :
    (retrieve_relevant_chunks storeB1 "who is the protagonist" (some ["b1"]) 5).length ≤ 5 ∧
    (∀ c ∈ retrieve_relevant_chunks storeB1 "who is the protagonist" (some ["b1"]) 5,
      ∃ b ∈ ["b1"], c.metadata.book_id = some b) ∧
    (retrieve_relevant_chunks storeB1 "who is the protagonist" (some ["b1"]) 5).Pairwise distLE :=
  retrieve_relevant_chunks_spec storeB1 "who is the protagonist" ["b1"] 5
    (by decide) (by decide)

/-- C7 (amended): whenever retrieval yields zero chunks, `query` returns the
fixed "no information found" answer with `chunks_used = 0` and never invokes
the composer — zero LLM completion calls are made for answer composition.
(The book-knowledge initialisation step that runs before retrieval may still
make completion calls of its own; see the counterexample.) -/
theorem query_empty_retrieval_short_circuit (store : ChunkStore)
    (ae ubk : Bool) (bc : List (Bool × Bool)) (ans q : String)
    (bids : List String) (n : Nat)
    (h : retrieve_relevant_chunks store q (some bids) n = []) :
    (rag_query store ae ubk bc ans q bids n).answer = noInfoAnswer ∧
    (rag_query store ae ubk bc ans q bids n).composeLLMCalls = 0 ∧
    (rag_query store ae ubk bc ans q bids n).chunks_used = 0 := by
  have hctx : get_comprehensive_context store q (some bids) n = noContextMsg := by
    unfold get_comprehensive_context
    rw [h]
    rfl
  simp only [rag_query, hctx]
  simp

/-- C7 witness: a store that finds nothing short-circuits the query. -/
theorem query_empty_retrieval_short_circuit_witness :
    (rag_query emptyStore false false [] "ans" "q" ["b1"] 80).answer = noInfoAnswer ∧
    (rag_query emptyStore false false [] "ans" "q" ["b1"] 80).composeLLMCalls = 0 ∧
    (rag_query emptyStore false false [] "ans" "q" ["b1"] 80).chunks_used = 0 :=
  query_empty_retrieval_short_circuit emptyStore false false [] "ans" "q" ["b1"] 80 rfl

/-- C7 counterexample: with book knowledge enabled, analyses uninitialised
and one cold-cached book with chunks, `query` makes 4 LLM completion calls
(via `initialize_book_knowledge` → `analyze_single_book`, which runs before
retrieval) even though retrieval yields zero chunks and the fixed answer is
returned — so "zero LLM completion calls" fails as stated. -/
theorem query_empty_retrieval_llm_calls_counterexample :
    retrieve_relevant_chunks emptyStore "q" (some ["b1"]) 80 = [] ∧
    (rag_query emptyStore true true [(false, true)] "ans" "q" ["b1"] 80).answer
      = noInfoAnswer ∧
    (rag_query emptyStore true true [(false, true)] "ans" "q" ["b1"] 80).initLLMCalls +
      (rag_query emptyStore true true [(false, true)] "ans" "q" ["b1"] 80).composeLLMCalls
      ≠ 0 := by
  refine ⟨rfl, ?_, ?_⟩ <;> decide

/-- C8 (amended): when the LLM response fails to parse as JSON, or parses to
a value failing the `'entities' in …`/`'relationships' in …` membership check
(for a JSON object: key presence), `BookKnowledgeGraph`'s extractor returns
an error-marked `{'error': …}` result and no exception escapes; the
comprehensive extractor in `MultiBookAnalyzer` instead returns the empty
graph `{'entities': {}, 'relationships': []}`, which carries no error marker
the caller could check. -/
theorem extraction_error_handling (parse : String → Option JValue)
    (book_id response : String)
    (h : parse (cleanLLMContent response) = none ∨
      ∃ j, parse (cleanLLMContent response) = some j ∧
        (pyIn "entities" j && pyIn "relationships" j) = false) :
    (∃ msg, extract_knowledge_graph parse book_id response = .error msg) ∧
    extract_comprehensive_entities parse response = emptyGraphJ ∧
    pyIn "error" (extract_comprehensive_entities parse response) = false := by
  have hx : extract_entities_and_relationships parse response = none := by
    rcases h with h | ⟨j, hj, hb⟩
    · simp [extract_entities_and_relationships, h]
    · simp [extract_entities_and_relationships, hj, hb]
  have hc : extract_comprehensive_entities parse response = emptyGraphJ := by
    rcases h with h | ⟨j, hj, hb⟩
    · simp [extract_comprehensive_entities, h]
    · simp [extract_comprehensive_entities, hj, hb]
  refine ⟨⟨"Failed to extract knowledge graph for " ++ book_id, ?_⟩, hc, ?_⟩
  · simp only [extract_knowledge_graph, hx]
  · rw [hc]
    rfl

/-- C8 witness: the response `"{}"` parses but lacks both keys; the
`BookKnowledgeGraph` extractor reports an error result and the comprehensive
extractor returns the unmarked empty graph. -/
theorem extraction_error_handling_witness :
    (∃ msg, extract_knowledge_graph miniJsonParse "b1" "{}" = .error msg) ∧
    extract_comprehensive_entities miniJsonParse "{}" = emptyGraphJ ∧
    pyIn "error" (extract_comprehensive_entities miniJsonParse "{}") = false :=
  extraction_error_handling miniJsonParse "b1" "{}"
    (Or.inr ⟨JValue.jobj [], rfl, rfl⟩)

/-- C8 counterexample: the concrete response `"{}"` parses as JSON but lacks
the `entities` key, and `extract_comprehensive_entities` returns
`{'entities': {}, 'relationships': []}` — a value with no `error` marker,
indistinguishable from a successful empty extraction — rather than the
error-marked result the claim requires of knowledge-graph extraction. -/
theorem extract_comprehensive_entities_counterexample :
    miniJsonParse (cleanLLMContent "{}") = some (JValue.jobj []) ∧
    pyIn "entities" (JValue.jobj []) = false ∧
    extract_comprehensive_entities miniJsonParse "{}" = emptyGraphJ ∧
    pyIn "error" (extract_comprehensive_entities miniJsonParse "{}") = false :=
  ⟨rfl, rfl, rfl, rfl⟩

/-- C9: the placeholder entity embedding is a deterministic pure function of
its input text and always returns a vector of exactly 384 rational
components; two calls with equal text yield equal vectors (for any digest
function standing in for `hashlib.md5`). -/
theorem generate_simple_embedding_spec (md5digest : String → List Nat)
    (t1 t2 : String) (h : t1 = t2) :
    (_generate_simple_embedding md5digest t1).length = 384 ∧
    _generate_simple_embedding md5digest t1 =
      _generate_simple_embedding md5digest t2 := by
  subst h
  refine ⟨?_, rfl⟩
  unfold _generate_simple_embedding
  rw [List.length_map, List.length_range]

/-- C9 witness: a concrete digest and text. -/
theorem generate_simple_embedding_spec_witness :
    (_generate_simple_embedding md5stub "Alice").length = 384 ∧
    _generate_simple_embedding md5stub "Alice" =
      _generate_simple_embedding md5stub "Alice" :=
  generate_simple_embedding_spec md5stub "Alice" "Alice" rfl

end BunnyAI
